import Mathlib

/-!
# Remote-provider authentication (`models/remote_auth.go`)

A shallow embedding of the token lifecycle code of the Meshery remote provider:
`DoRequest`, `refreshToken`, `doRequestHelper`, `DecodeTokenData`, `UpdateJWKs`,
`GetJWK`, `GenerateKey` and `VerifyToken`.

Modelling conventions.

* A Go `error` is a message (`Err`); a nil pointer, nil map or nil error is `none`.
  A Go function returning `(T, error)` returns a pair of options, so that a nil
  first component next to a non-nil error is representable, as in Go.
* A Go function can return, panic (nil dereference, failed type assertion) or
  terminate the process (`logrus.Fatal` calls `os.Exit(1)`): see `Outcome`.
* The receiver `l *MesheryRemoteProvider` and everything outside the process
  (the network) live in `State`; the network is a world `W` stepped by the
  functions of `Env`, and every call that leaves the process is appended to
  `State.trace`.
* Library functions that are not part of the repository (`encoding/json`,
  `jwt-go`, `crypto/x509`, `encoding/pem`, `net/http`) are fields of `Env`.
  `encoding/base64` (raw encodings) and `big.Int.SetBytes` are modelled
  concretely, since the key reconstruction depends on their values.
* Go strings are byte strings; here they are Lean strings, and every character
  the base64 alphabets and the JSON punctuation use is ASCII. For text outside
  ASCII the offset in a base64 error message counts characters, not bytes.
* Non-fatal logging (`logrus.Errorf`, `logrus.Error`, `logrus.Infof`) has no
  effect on results and is left out. The mutex `TokenStoreMut` is left out: the
  model is sequential.
-/

namespace Meshery

/-! ## Go values -/

/-- Go `error`, identified by its message. -/
abbrev Err := String

/-- The ways a Go call can end: a normal return, a run-time panic, or the
termination of the process with an exit code. -/
inductive Outcome (α : Type) where
  | ret (a : α)
  | panic (msg : String)
  | exit (code : Nat)
  deriving DecidableEq, Repr

deriving instance DecidableEq for Except

/-- Message of the run-time panic raised by a nil pointer dereference. -/
def nilDeref : String := "runtime error: invalid memory address or nil pointer dereference"

/-- Message of the run-time panic raised by a failed unchecked type assertion to `string`. -/
def badAssert : String := "interface conversion: interface is not string"

/-- Go `map[string]string` as an association list with unique keys. -/
abbrev StrMap := List (String × String)

/-- The comma-ok lookup `v, ok := m[k]`. -/
def mapLookup : StrMap → String → Option String
  | [], _ => none
  | (k', v) :: rest, k => if k' = k then some v else mapLookup rest k

/-- The index expression `m[k]`: the zero value `""` when `k` has no entry. -/
def mapIndex (m : StrMap) (k : String) : String :=
  (mapLookup m k).getD ""

/-- The assignment `m[k] = v`. -/
def mapSet : StrMap → String → String → StrMap
  | [], k, v => [(k, v)]
  | (k', v') :: rest, k, v =>
    if k' = k then (k, v) :: rest else (k', v') :: mapSet rest k v

/-- Declaration `type JWK map[string]string`. -/
abbrev JWK := StrMap

/-! ## `encoding/base64`, raw (unpadded) encodings -/

/-- The standard alphabet `encodeStd`. -/
def encodeStd : List Char :=
  "ABCDEFGHIJKLMNOPQRSTUVWXYZabcdefghijklmnopqrstuvwxyz0123456789+/".toList

/-- The URL-safe alphabet `encodeURL`. -/
def encodeURL : List Char :=
  "ABCDEFGHIJKLMNOPQRSTUVWXYZabcdefghijklmnopqrstuvwxyz0123456789-_".toList

/-- The table `decodeMap` of an encoding: the position of a character in the
alphabet, `none` (Go: `0xff`) for a character outside it. -/
def decodeMap (alphabet : List Char) (c : Char) : Option Nat :=
  if alphabet.indexOf c < alphabet.length then some (alphabet.indexOf c) else none

/-- The bytes of one quantum of `dlen` 6-bit digits (`dlen` is 2, 3 or 4):
`val := d0<<18 | d1<<12 | d2<<6 | d3`, of which the first `dlen - 1` bytes are kept. -/
def quantumBytes (dbuf : List Nat) : List Nat :=
  let val := dbuf.getD 0 0 * 2 ^ 18 + dbuf.getD 1 0 * 2 ^ 12 + dbuf.getD 2 0 * 2 ^ 6 + dbuf.getD 3 0
  [val / 2 ^ 16 % 256, val / 2 ^ 8 % 256, val % 256].take (dbuf.length - 1)

/-- The decoding loop of `Encoding.Decode` for an encoding without padding, not in
strict mode: `si` is the index of the next input character, `dbuf` the digits of
the current quantum, `dst` the bytes written so far. Characters of the alphabet
are collected four at a time, `\r` and `\n` are skipped, any other character is a
`CorruptInputError` at its index; at the end of the input a quantum of one digit
is a `CorruptInputError`, one of two or three digits gives one or two bytes. -/
def decodeLoop (alphabet : List Char) : List Char → Nat → List Nat → List Nat → Except Err (List Nat)
  | [], si, dbuf, dst =>
    if dbuf.length = 0 then .ok dst
    else if dbuf.length = 1 then
      .error ("illegal base64 data at input byte " ++ toString (si - 1))
    else .ok (dst ++ quantumBytes dbuf)
  | c :: rest, si, dbuf, dst =>
    match decodeMap alphabet c with
    | some d =>
      if dbuf.length = 3 then decodeLoop alphabet rest (si + 1) [] (dst ++ quantumBytes (dbuf ++ [d]))
      else decodeLoop alphabet rest (si + 1) (dbuf ++ [d]) dst
    | none =>
      if c = '\n' ∨ c = '\r' then decodeLoop alphabet rest (si + 1) dbuf dst
      else .error ("illegal base64 data at input byte " ++ toString si)

/-- The call `base64.RawStdEncoding.DecodeString`. -/
def rawStdDecodeString (s : String) : Except Err (List Nat) :=
  decodeLoop encodeStd s.toList 0 [] []

/-- The call `base64.RawURLEncoding.DecodeString`. -/
def rawURLDecodeString (s : String) : Except Err (List Nat) :=
  decodeLoop encodeURL s.toList 0 [] []

/-- The call `new(big.Int).SetBytes(buf)`: the big-endian unsigned value of `buf`. -/
def setBytes (buf : List Nat) : Nat :=
  buf.foldl (fun acc b => acc * 256 + b) 0

/-! ## Data model -/

/-- The fields of `oauth2.Token` (`Expiry` as Unix seconds). -/
structure Token where
  AccessToken : String
  TokenType : String
  RefreshToken : String
  Expiry : Int
  deriving DecidableEq, Repr

/-- The parts of `http.Request` the code touches; `Header` is a `map[string][]string`. -/
structure Request where
  Method : String
  URL : String
  Header : List (String × List String)
  Body : String
  deriving DecidableEq, Repr

/-- A response body stream: its whole content, or the error reading it gives. -/
inductive Body where
  | data (s : String)
  | readError (e : Err)
  deriving DecidableEq, Repr

/-- The parts of `http.Response` the code touches. -/
structure Response where
  StatusCode : Int
  Body : Body
  deriving DecidableEq, Repr

/-- The method `Header.Set(key, value)`: the values of `key` become `[value]`. -/
def headerSet : List (String × List String) → String → String → List (String × List String)
  | [], k, v => [(k, [v])]
  | (k', vs) :: rest, k, v =>
    if k' = k then (k, [v]) :: rest else (k', vs) :: headerSet rest k v

/-- The index expression `h[key]` on a header: nil when `key` has no entry. -/
def headerValues : List (String × List String) → String → List String
  | [], _ => []
  | (k', vs) :: rest, k => if k' = k then vs else headerValues rest k

/-- The statement `req.Header.Set("Authorization", fmt.Sprintf("bearer %s", accessToken))`. -/
def setBearer (req : Request) (accessToken : String) : Request :=
  { req with Header := headerSet req.Header "Authorization" ("bearer " ++ accessToken) }

/-- A value of type `interface{}` as `encoding/json` produces it. -/
inductive GoValue where
  | str (s : String)
  | number (n : Int)
  | bool (b : Bool)
  | null
  | composite
  deriving DecidableEq, Repr

/-- Declaration `jwt.MapClaims`, a `map[string]interface{}`. -/
abbrev MapClaims := List (String × GoValue)

/-- A value of the interface `jwt.Claims`: a `jwt.MapClaims` or some other implementation. -/
inductive Claims where
  | mapClaims (m : MapClaims)
  | otherClaims
  deriving DecidableEq, Repr

/-- The parts of `jwt.Token` the code touches. -/
structure JWTToken where
  Raw : String
  Header : List (String × GoValue)
  Claims : Claims
  deriving DecidableEq, Repr

/-- The index expression `header[key]` on a `map[string]interface{}`: nil when absent. -/
def headerField : List (String × GoValue) → String → Option GoValue
  | [], _ => none
  | (k', v) :: rest, k => if k' = k then some v else headerField rest k

/-- The fields of `rsa.PublicKey`. -/
structure PublicKey where
  N : Nat
  E : Int
  deriving DecidableEq, Repr

/-- The fields of `MesheryRemoteProvider` the code touches. -/
structure MesheryRemoteProvider where
  SaaSBaseURL : String
  TokenStore : StrMap
  Keys : List JWK
  deriving DecidableEq, Repr

/-- A call that leaves the process, or a timer it arms. -/
inductive Effect where
  /-- Call `c.Do(req)`. -/
  | clientDo (req : Request)
  /-- Call `http.Post(url, contentType, body)`. -/
  | httpPost (url : String) (contentType : String) (body : String)
  /-- Call `http.Get(url)`. -/
  | httpGet (url : String)
  /-- Call `time.AfterFunc(d, func() { delete(l.TokenStore, key) })`, `d` in nanoseconds. -/
  | afterFunc (d : Nat) (key : String)
  deriving DecidableEq, Repr

/-- The provider, the world outside the process, and the calls made so far. -/
structure State (W : Type) where
  l : MesheryRemoteProvider
  world : W
  trace : List Effect
  deriving DecidableEq, Repr

/-- What the code takes from outside this file: the package constant `tokenName`,
the network (a transport failure is an error with a nil response), and the
library functions. -/
structure Env (W : Type) where
  /-- The package constant `tokenName`. -/
  tokenName : String
  /-- Method `(*http.Client).Do`. -/
  clientDo : Request → W → Except Err Response × W
  /-- Function `http.Post(url, contentType, body)`. -/
  httpPost : String → String → String → W → Except Err Response × W
  /-- Function `http.Get(url)`. -/
  httpGet : String → W → Except Err Response × W
  /-- Function `json.Marshal` on a `map[string]string`. -/
  jsonMarshal : StrMap → Except Err String
  /-- Method `(*json.Decoder).Decode` into a nil `map[string]string`. -/
  jsonDecodeStrMap : String → Except Err StrMap
  /-- Function `json.Unmarshal` into a zero `oauth2.Token`. -/
  jsonUnmarshalToken : List Nat → Except Err Token
  /-- Function `json.Unmarshal` into an empty `map[string][]map[string]string`:
  the map as the call leaves it, and the error it returns. -/
  jsonUnmarshalKeySet : String → List (String × List JWK) × Option Err
  /-- Method `(*jwt.Parser).ParseUnverified` with `jwt.MapClaims{}`. -/
  parseUnverified : String → Except Err JWTToken
  /-- Function `jwt.Parse` with a key function returning the given key. -/
  jwtParse : String → Option PublicKey → Except Err JWTToken
  /-- Function `x509.MarshalPKIXPublicKey`. -/
  marshalPKIXPublicKey : PublicKey → Except Err (List Nat)
  /-- Function `pem.Encode` into an empty buffer, with the block type and bytes. -/
  pemEncode : String → List Nat → List Nat
  /-- Function `jwt.ParseRSAPublicKeyFromPEM`. -/
  parseRSAPublicKeyFromPEM : List Nat → Option PublicKey × Option Err

/-- The index expression `m[k]` on a `map[string][]map[string]string`: nil when absent. -/
def keySetIndex : List (String × List JWK) → String → List JWK
  | [], _ => []
  | (k', v) :: rest, k => if k' = k then v else keySetIndex rest k

/-- Constant `5*time.Minute`, in nanoseconds. -/
def fiveMinutes : Nat := 5 * (60 * 1000000000)

/-! ## The functions of `remote_auth.go` -/

section Program

variable {W : Type}

/-- DecodeTokenData - Decodes a tokenString to a token. -/
def DecodeTokenData (env : Env W) (tokenStringB64 : String) : Option Token × Option Err :=
  match rawStdDecodeString tokenStringB64 with
  | .error err => (none, some err)
  | .ok tokenString =>
    match env.jsonUnmarshalToken tokenString with
    | .error err => (none, some err)
    | .ok token => (some token, none)

/-- Function `doRequestHelper`. The request is a pointer in Go: the request as the
call leaves it is returned next to the results. -/
def doRequestHelper (env : Env W) (req : Request) (tokenString : String) (s : State W) :
    Outcome (Request × Option Response × Option Err) × State W :=
  match DecodeTokenData env tokenString with
  | (_, some err) => (.ret (req, none, some err), s)
  | (none, none) => (.panic nilDeref, s)
  | (some token, none) =>
    let req1 := setBearer req token.AccessToken
    let s1 : State W :=
      { s with world := (env.clientDo req1 s.world).2, trace := s.trace ++ [Effect.clientDo req1] }
    match (env.clientDo req1 s.world).1 with
    | .error err => (.ret (req1, none, some err), s1)
    | .ok resp => (.ret (req1, some resp, none), s1)

/-- refreshToken - takes a tokenString and returns a new tokenString. -/
def refreshToken (env : Env W) (tokenString : String) (s : State W) :
    Outcome (String × Option Err) × State W :=
  let newTokenString := mapIndex s.l.TokenStore tokenString
  if newTokenString ≠ "" then (.ret (newTokenString, none), s)
  else
    let bd : StrMap := [(env.tokenName, tokenString)]
    match env.jsonMarshal bd with
    | .error err => (.ret ("", some err), s)
    | .ok jsonString =>
      let url := s.l.SaaSBaseURL ++ "/refresh"
      let ct := "application/json; charset=utf-8"
      let s1 : State W :=
        { s with world := (env.httpPost url ct jsonString s.world).2,
                 trace := s.trace ++ [Effect.httpPost url ct jsonString] }
      match (env.httpPost url ct jsonString s.world).1 with
      | .error _ => (.panic nilDeref, s1)
      | .ok r =>
        let decoded : Except Err StrMap :=
          match r.Body with
          | .readError e => .error e
          | .data b => env.jsonDecodeStrMap b
        match decoded with
        | .error err => (.ret ("", some err), s1)
        | .ok target =>
          let s2 : State W :=
            { s1 with
              l := { s1.l with
                     TokenStore := mapSet s1.l.TokenStore tokenString (mapIndex target env.tokenName) },
              trace := s1.trace ++ [Effect.afterFunc fiveMinutes tokenString] }
          (.ret (mapIndex target env.tokenName, none), s2)

/-- DoRequest - executes a request and does refreshing automatically. -/
def DoRequest (env : Env W) (req : Request) (tokenString : String) (s : State W) :
    Outcome (Request × Option Response × Option Err) × State W :=
  match doRequestHelper env req tokenString s with
  | (.panic msg, s1) => (.panic msg, s1)
  | (.exit code, s1) => (.exit code, s1)
  | (.ret (req1, resp, err), s1) =>
    match resp with
    | none => (.panic nilDeref, s1)
    | some r =>
      if r.StatusCode = 401 ∨ r.StatusCode = 403 then
        match refreshToken env tokenString s1 with
        | (.panic msg, s2) => (.panic msg, s2)
        | (.exit code, s2) => (.exit code, s2)
        | (.ret (_, some err'), s2) => (.ret (req1, none, some err'), s2)
        | (.ret (newToken, none), s2) => doRequestHelper env req1 newToken s2
      else (.ret (req1, resp, err), s1)

/-- UpdateJWKs - Updates Keys to the JWKS. -/
def UpdateJWKs (env : Env W) (s : State W) : Option Err × State W :=
  let url := s.l.SaaSBaseURL ++ "/keys"
  let s1 : State W :=
    { s with world := (env.httpGet url s.world).2, trace := s.trace ++ [Effect.httpGet url] }
  match (env.httpGet url s.world).1 with
  | .error err => (some err, s1)
  | .ok resp =>
    match resp.Body with
    | .readError err => (some err, s1)
    | .data jsonDataFromHttp =>
      let jwksJSON := (env.jsonUnmarshalKeySet jsonDataFromHttp).1
      let jwks := keySetIndex jwksJSON "keys"
      (none, { s1 with l := { s1.l with Keys := jwks } })

/-- The loop `for _, key := range l.Keys { if key["kid"] == kid { return key, nil } }`:
the first key it returns, if any. -/
def scanKeys : List JWK → String → Option JWK
  | [], _ => none
  | key :: rest, kid => if mapIndex key "kid" = kid then some key else scanKeys rest kid

/-- GetJWK - Takes a keyId and returns the JWK. -/
def GetJWK (env : Env W) (kid : String) (s : State W) : (Option JWK × Option Err) × State W :=
  match scanKeys s.l.Keys kid with
  | some key => ((some key, none), s)
  | none =>
    match UpdateJWKs env s with
    | (some err, s1) => ((none, some err), s1)
    | (none, s1) =>
      match scanKeys s1.l.Keys kid with
      | some key => ((some key, none), s1)
      | none => ((none, some "Key not found"), s1)

/-- Lines 182-195 of `GenerateKey`: the key is marshalled to PKIX DER, wrapped in a
PEM block of type `RSA PUBLIC KEY`, and parsed back. -/
def marshalAndParse (env : Env W) (pk : PublicKey) : Outcome (Option PublicKey × Option Err) :=
  match env.marshalPKIXPublicKey pk with
  | .error _ => .exit 1
  | .ok der => .ret (env.parseRSAPublicKeyFromPEM (env.pemEncode "RSA PUBLIC KEY" der))

/-- GenerateKey - generate the actual key from the JWK. Each `logrus.Fatal` ends the
process with exit code 1; the `return` after it is not reached. -/
def GenerateKey (env : Env W) (jwk : JWK) : Outcome (Option PublicKey × Option Err) :=
  match rawURLDecodeString (mapIndex jwk "n") with
  | .error _ => .exit 1
  | .ok nb =>
    if mapIndex jwk "e" = "AQAB" ∨ mapIndex jwk "e" = "AAEAAQ" then
      let e : Int := 65537
      let pk : PublicKey := { N := setBytes nb, E := e }
      marshalAndParse env pk
    else .exit 1

/-- VerifyToken - verifies the validity of a tokenstring. -/
def VerifyToken (env : Env W) (tokenString : String) (s : State W) :
    Outcome (Option MapClaims × Option Err) × State W :=
  match DecodeTokenData env tokenString with
  | (_, some err) => (.ret (none, some err), s)
  | (none, none) => (.panic nilDeref, s)
  | (some dtoken, none) =>
    let tokenString := dtoken.AccessToken
    match env.parseUnverified tokenString with
    | .error err => (.ret (none, some err), s)
    | .ok tokenUP =>
      match headerField tokenUP.Header "kid" with
      | some (.str kid) =>
        match GetJWK env kid s with
        | ((_, some err), s1) => (.ret (none, some err), s1)
        | ((keyJSON, none), s1) =>
          match GenerateKey env (keyJSON.getD []) with
          | .exit code => (.exit code, s1)
          | .panic msg => (.panic msg, s1)
          | .ret (_, some err) => (.ret (none, some err), s1)
          | .ret (key, none) =>
            match env.jwtParse tokenString key with
            | .error err => (.ret (none, some err), s1)
            | .ok token =>
              match token.Claims with
              | .mapClaims claims => (.ret (some claims, none), s1)
              | .otherClaims => (.ret (none, some "Error parsing claims"), s1)
      | _ => (.panic badAssert, s)

end Program

/-! ## A concrete backend

A small backend on which the functions above are run: the world is the number of
calls answered so far. It is the end-to-end scenario of the specification
(token `X` wraps access token `abc`, the refresh endpoint answers with `Y`, which
wraps `def`, and the protected resource accepts `bearer def` only), with two more
hosts: one whose endpoints answer without the expected fields, and any other
host, which is unreachable. -/

/-- The bytes of an ASCII string. -/
def asciiBytes (s : String) : List Nat :=
  s.toList.map Char.toNat

/-- Opaque token `X`: base64 of the envelope with access token `abc`. -/
def tokenX : String := "eyJhY2Nlc3NfdG9rZW4iOiJhYmMifQ"

/-- Opaque token `Y`: base64 of the envelope with access token `def`. -/
def tokenY : String := "eyJhY2Nlc3NfdG9rZW4iOiJkZWYifQ"

/-- Opaque token wrapping the access token `nokid.jwt`, whose header names no key. -/
def tokenNoKid : String := "eyJhY2Nlc3NfdG9rZW4iOiJub2tpZC5qd3QifQ"

/-- Opaque token wrapping the access token `k1.jwt`, signed with key k1. -/
def tokenK1 : String := "eyJhY2Nlc3NfdG9rZW4iOiJrMS5qd3QifQ"

/-- Opaque token wrapping the access token `k3.jwt`, signed with key k3. -/
def tokenK3 : String := "eyJhY2Nlc3NfdG9rZW4iOiJrMy5qd3QifQ"

/-- A published key with the exponent 65537. -/
def key1 : JWK := [("kid", "k1"), ("kty", "RSA"), ("n", "AQAB"), ("e", "AQAB")]

/-- A second published key. -/
def key2 : JWK := [("kid", "k2"), ("kty", "RSA"), ("n", "AAEAAQ"), ("e", "AAEAAQ")]

/-- A published key with the exponent 3. -/
def key3 : JWK := [("kid", "k3"), ("kty", "RSA"), ("n", "AQAB"), ("e", "Aw")]

/-- The body the demo backend serves at `/keys`. -/
def keysBody : String :=
  "\x7b\"keys\":[\x7b\"kid\":\"k1\",\"kty\":\"RSA\",\"n\":\"AQAB\",\"e\":\"AQAB\"\x7d,\x7b\"kid\":\"k2\",\"kty\":\"RSA\",\"n\":\"AAEAAQ\",\"e\":\"AAEAAQ\"\x7d]\x7d"

/-- The body the demo backend serves at `/refresh`. -/
def refreshBody : String :=
  "\x7b\"token\":\"eyJhY2Nlc3NfdG9rZW4iOiJkZWYifQ\"\x7d"

/-- Rendering of a string map as a JSON object (no character of the demo needs escaping). -/
def renderStrMap (m : StrMap) : String :=
  "\x7b" ++ ",".intercalate (m.map (fun kv => "\"" ++ kv.1 ++ "\":\"" ++ kv.2 ++ "\"")) ++ "\x7d"

/-- The demo backend and library. -/
def demoEnv : Env Nat where
  tokenName := "token"
  clientDo := fun req w =>
    if headerValues req.Header "Authorization" = ["bearer def"] then
      (.ok { StatusCode := 200, Body := .data "welcome" }, w + 1)
    else (.ok { StatusCode := 401, Body := .data "unauthorized" }, w + 1)
  httpPost := fun url _ _ w =>
    if url = "https://meshery.example/refresh" then
      (.ok { StatusCode := 200, Body := .data refreshBody }, w + 1)
    else if url = "https://other.example/refresh" then
      (.ok { StatusCode := 200, Body := .data "\x7b\"error\":\"expired\"\x7d" }, w + 1)
    else (.error "dial tcp: connection refused", w + 1)
  httpGet := fun url w =>
    if url = "https://meshery.example/keys" then
      (.ok { StatusCode := 200, Body := .data keysBody }, w + 1)
    else if url = "https://other.example/keys" then
      (.ok { StatusCode := 502, Body := .data "<html>Bad Gateway</html>" }, w + 1)
    else (.error "dial tcp: connection refused", w + 1)
  jsonMarshal := fun m => .ok (renderStrMap m)
  jsonDecodeStrMap := fun b =>
    if b = refreshBody then .ok [("token", tokenY)]
    else if b = "\x7b\"error\":\"expired\"\x7d" then .ok [("error", "expired")]
    else .error "invalid character"
  jsonUnmarshalToken := fun bytes =>
    if bytes = asciiBytes "\x7b\"access_token\":\"abc\"\x7d" then
      .ok { AccessToken := "abc", TokenType := "", RefreshToken := "", Expiry := 0 }
    else if bytes = asciiBytes "\x7b\"access_token\":\"def\"\x7d" then
      .ok { AccessToken := "def", TokenType := "", RefreshToken := "", Expiry := 0 }
    else if bytes = asciiBytes "\x7b\"access_token\":\"nokid.jwt\"\x7d" then
      .ok { AccessToken := "nokid.jwt", TokenType := "", RefreshToken := "", Expiry := 0 }
    else if bytes = asciiBytes "\x7b\"access_token\":\"k1.jwt\"\x7d" then
      .ok { AccessToken := "k1.jwt", TokenType := "", RefreshToken := "", Expiry := 0 }
    else if bytes = asciiBytes "\x7b\"access_token\":\"k3.jwt\"\x7d" then
      .ok { AccessToken := "k3.jwt", TokenType := "", RefreshToken := "", Expiry := 0 }
    else .error "unexpected end of JSON input"
  jsonUnmarshalKeySet := fun b =>
    if b = keysBody then ([("keys", [key1, key2])], none)
    else ([], some "invalid character '<' looking for beginning of value")
  parseUnverified := fun t =>
    if t = "nokid.jwt" then
      .ok { Raw := t, Header := [("alg", .str "RS256"), ("typ", .str "JWT")], Claims := .mapClaims [] }
    else if t = "k1.jwt" then
      .ok { Raw := t, Header := [("alg", .str "RS256"), ("kid", .str "k1")], Claims := .mapClaims [] }
    else if t = "k3.jwt" then
      .ok { Raw := t, Header := [("alg", .str "RS256"), ("kid", .str "k3")], Claims := .mapClaims [] }
    else .error "token contains an invalid number of segments"
  jwtParse := fun t key =>
    if t = "k1.jwt" ∧ key = some { N := 65537, E := 65537 } then
      .ok { Raw := t, Header := [("alg", .str "RS256"), ("kid", .str "k1")],
            Claims := .mapClaims [("sub", .str "alice")] }
    else .error "crypto/rsa: verification error"
  marshalPKIXPublicKey := fun pk => .ok [pk.N, pk.E.toNat]
  pemEncode := fun _ der => der
  parseRSAPublicKeyFromPEM := fun pemBytes =>
    match pemBytes with
    | [n, e] => (some { N := n, E := e }, none)
    | _ => (none, some "Invalid Key: Key must be PEM encoded PKCS1 or PKCS8 private key")

/-- A provider of the demo backend with the given base URL, token store and keys, before any call. -/
def demoState (baseURL : String) (store : StrMap) (keys : List JWK) : State Nat :=
  { l := { SaaSBaseURL := baseURL, TokenStore := store, Keys := keys }, world := 0, trace := [] }

/-- A request to a protected resource. -/
def demoRequest : Request :=
  { Method := "GET", URL := "https://meshery.example/user", Header := [("Accept", ["application/json"])], Body := "" }

/-- Whether an effect is an `http.Get` call. -/
def Effect.isGet : Effect → Bool
  | .httpGet _ => true
  | _ => false

/-- Whether an effect is an `http.Post` call. -/
def Effect.isPost : Effect → Bool
  | .httpPost _ _ _ => true
  | _ => false

/-- Whether an effect is a `c.Do` call. -/
def Effect.isRequest : Effect → Bool
  | .clientDo _ => true
  | _ => false

/-- The number of `http.Get` calls in a trace. -/
def countGets (t : List Effect) : Nat :=
  (t.filter Effect.isGet).length

/-- The number of `http.Post` calls in a trace. -/
def countPosts (t : List Effect) : Nat :=
  (t.filter Effect.isPost).length

/-- The number of `c.Do` calls in a trace. -/
def countRequests (t : List Effect) : Nat :=
  (t.filter Effect.isRequest).length

/-! ## Lemmas on maps, headers and traces -/

theorem mapLookup_mapSet (m : StrMap) (k v k' : String) :
    mapLookup (mapSet m k v) k' = if k = k' then some v else mapLookup m k' := by
  induction m with
  | nil => simp [mapSet, mapLookup]
  | cons p rest ih =>
    obtain ⟨a, b⟩ := p
    by_cases hak : a = k
    · subst hak
      by_cases hk : a = k' <;> simp [mapSet, mapLookup, hk]
    · by_cases hk : k = k'
      · subst hk
        simp [mapSet, mapLookup, hak, ih]
      · by_cases hak' : a = k'
        · subst hak'
          simp [mapSet, mapLookup, hak, hk]
        · simp [mapSet, mapLookup, hak, hak', hk, ih]

theorem mapIndex_of_lookup_none (m : StrMap) (k : String) (h : mapLookup m k = none) :
    mapIndex m k = "" := by
  simp [mapIndex, h]

theorem mapIndex_of_lookup_some (m : StrMap) (k v : String) (h : mapLookup m k = some v) :
    mapIndex m k = v := by
  simp [mapIndex, h]

theorem headerValues_headerSet (h : List (String × List String)) (k v : String) :
    headerValues (headerSet h k v) k = [v] := by
  induction h with
  | nil => simp [headerSet, headerValues]
  | cons p rest ih =>
    obtain ⟨a, b⟩ := p
    by_cases hak : a = k <;> simp [headerSet, headerValues, hak, ih]

theorem headerSet_headerSet (h : List (String × List String)) (k v v' : String) :
    headerSet (headerSet h k v) k v' = headerSet h k v' := by
  induction h with
  | nil => simp [headerSet]
  | cons p rest ih =>
    obtain ⟨a, b⟩ := p
    by_cases hak : a = k <;> simp [headerSet, hak, ih]

theorem setBearer_setBearer (req : Request) (a b : String) :
    setBearer (setBearer req a) b = setBearer req b := by
  simp [setBearer, headerSet_headerSet]

theorem setBearer_authorization (req : Request) (a : String) :
    headerValues (setBearer req a).Header "Authorization" = ["bearer " ++ a] := by
  simp [setBearer, headerValues_headerSet]

theorem countRequests_append (t u : List Effect) :
    countRequests (t ++ u) = countRequests t + countRequests u := by
  simp [countRequests, List.filter_append]

theorem countPosts_append (t u : List Effect) :
    countPosts (t ++ u) = countPosts t + countPosts u := by
  simp [countPosts, List.filter_append]

theorem countGets_append (t u : List Effect) :
    countGets (t ++ u) = countGets t + countGets u := by
  simp [countGets, List.filter_append]

/-- The value `SetBytes` gives is the base-256 number whose most significant digit comes first. -/
theorem setBytes_eq_ofDigits (buf : List Nat) : setBytes buf = Nat.ofDigits 256 buf.reverse := by
  have key : ∀ (l : List Nat) (acc : Nat),
      l.foldl (fun acc b => acc * 256 + b) acc
        = acc * 256 ^ l.length + Nat.ofDigits 256 l.reverse := by
    intro l
    induction l with
    | nil => intro acc; simp
    | cons b rest ih =>
      intro acc
      rw [List.foldl_cons, ih, List.reverse_cons, Nat.ofDigits_append, Nat.ofDigits_singleton,
        List.length_reverse, List.length_cons]
      ring
  simpa [setBytes] using key buf 0

/-! ## Key reconstruction -/

section Theorems

variable {W : Type}

/-- An entry whose modulus does not decode, or whose exponent is not one of the two
recognised strings, ends the process: `GenerateKey` does not return. -/
theorem GenerateKey_exits (env : Env W) (jwk : JWK)
    (h : (∃ err, rawURLDecodeString (mapIndex jwk "n") = .error err) ∨
      (mapIndex jwk "e" ≠ "AQAB" ∧ mapIndex jwk "e" ≠ "AAEAAQ")) :
    GenerateKey env jwk = .exit 1 := by
  unfold GenerateKey
  rcases h with ⟨err, herr⟩ | ⟨h1, h2⟩
  · rw [herr]
  · cases hn : rawURLDecodeString (mapIndex jwk "n") with
    | error e => rfl
    | ok nb => simp [h1, h2]

/-- Claim C9 (as the code behaves): for the key-set entry with `kid` k3, modulus `AQAB`
and exponent `Aw` (the exponent 3), for an entry with no `e`, and for an entry whose
`n` is not base64, `GenerateKey` terminates the process with exit code 1 instead of
returning no key and an error. -/
theorem GenerateKey_unsupported_exponent_terminates_process (env : Env W) :
    GenerateKey env key3 = .exit 1 ∧
    GenerateKey env [("kid", "k4"), ("n", "AQAB")] = .exit 1 ∧
    GenerateKey env [("kid", "k5"), ("n", "A"), ("e", "AQAB")] = .exit 1 := by
  refine ⟨?_, ?_, ?_⟩
  · exact GenerateKey_exits env _ (Or.inr (by decide))
  · exact GenerateKey_exits env _ (Or.inr (by decide))
  · exact GenerateKey_exits env _ (Or.inl ⟨_, rfl⟩)

/-- Claim C10: for a key-set entry whose `e` is `AQAB` or `AAEAAQ` and whose `n` decodes
(unpadded URL-safe base64) to the bytes `nb`, the RSA public key that `GenerateKey`
constructs and hands to the PKIX encoder has exponent 65537 and modulus the big-endian
value of `nb` (its base-256 digits, most significant first); when the PKIX and PEM
round trip gives the key back, that key is what `GenerateKey` returns, with a nil
error. And 65537 is what decoding `e` gives: `AQAB` decodes to the bytes 1,0,1 and
`AAEAAQ` to 0,1,0,1, both of big-endian value 65537. -/
theorem GenerateKey_builds_modulus_and_exponent (env : Env W) (jwk : JWK) (nb : List Nat)
    (he : mapIndex jwk "e" = "AQAB" ∨ mapIndex jwk "e" = "AAEAAQ")
    (hn : rawURLDecodeString (mapIndex jwk "n") = .ok nb) :
    GenerateKey env jwk = marshalAndParse env { N := setBytes nb, E := 65537 } ∧
    setBytes nb = Nat.ofDigits 256 nb.reverse ∧
    (∀ der, env.marshalPKIXPublicKey { N := setBytes nb, E := 65537 } = .ok der →
      env.parseRSAPublicKeyFromPEM (env.pemEncode "RSA PUBLIC KEY" der)
        = (some { N := setBytes nb, E := 65537 }, none) →
      GenerateKey env jwk = .ret (some { N := setBytes nb, E := 65537 }, none)) ∧
    rawURLDecodeString "AQAB" = .ok [1, 0, 1] ∧
    rawURLDecodeString "AAEAAQ" = .ok [0, 1, 0, 1] ∧
    setBytes [1, 0, 1] = 65537 ∧ setBytes [0, 1, 0, 1] = 65537 := by
  have hrun : GenerateKey env jwk = marshalAndParse env { N := setBytes nb, E := 65537 } := by
    unfold GenerateKey
    rw [hn]
    simp [he]
  refine ⟨hrun, setBytes_eq_ofDigits nb, ?_, by decide, by decide, by decide, by decide⟩
  intro der hder hparse
  rw [hrun]
  simp [marshalAndParse, hder, hparse]

/-- Claim C10 at the published key k2: `e` is `AAEAAQ`, `n` decodes to the bytes 0,1,0,1,
and the key built and returned has modulus 65537 and exponent 65537. -/
theorem GenerateKey_builds_modulus_and_exponent_witness :
    (mapIndex key2 "e" = "AQAB" ∨ mapIndex key2 "e" = "AAEAAQ") ∧
    rawURLDecodeString (mapIndex key2 "n") = .ok [0, 1, 0, 1] ∧
    GenerateKey demoEnv key2 = marshalAndParse demoEnv { N := setBytes [0, 1, 0, 1], E := 65537 } ∧
    GenerateKey demoEnv key2 = .ret (some { N := 65537, E := 65537 }, none) :=
  have h := GenerateKey_builds_modulus_and_exponent demoEnv key2 [0, 1, 0, 1]
    (by decide) (by decide)
  ⟨by decide, by decide, h.1, h.2.2.1 [65537, 65537] (by decide) (by decide)⟩

/-! ## Token codec and request execution -/

/-- A token that is not base64 does not decode, whatever the JSON library does. -/
theorem DecodeTokenData_of_base64_error (env : Env W) (tokenStringB64 : String) (err : Err)
    (h : rawStdDecodeString tokenStringB64 = .error err) :
    DecodeTokenData env tokenStringB64 = (none, some err) := by
  simp [DecodeTokenData, h]

/-- The results of `DecodeTokenData` are a token and no error, or no token and an error. -/
theorem DecodeTokenData_cases (env : Env W) (tokenStringB64 : String) :
    (∃ token, DecodeTokenData env tokenStringB64 = (some token, none)) ∨
    (∃ err, DecodeTokenData env tokenStringB64 = (none, some err)) := by
  unfold DecodeTokenData
  cases h1 : rawStdDecodeString tokenStringB64 with
  | error err => exact Or.inr ⟨err, rfl⟩
  | ok bytes =>
    cases h2 : env.jsonUnmarshalToken bytes with
    | error err => exact Or.inr ⟨err, by simp [h2]⟩
    | ok token => exact Or.inl ⟨token, by simp [h2]⟩

/-- When the token does not decode, `doRequestHelper` returns a nil response and the
decode error, and issues no request. -/
theorem doRequestHelper_of_decode_error (env : Env W) (req : Request) (tokenString : String)
    (s : State W) (err : Err) (h : DecodeTokenData env tokenString = (none, some err)) :
    doRequestHelper env req tokenString s = (.ret (req, none, some err), s) := by
  simp [doRequestHelper, h]

/-- When the token decodes, `doRequestHelper` issues the request once, with the bearer
header set, and returns what the client returns. -/
theorem doRequestHelper_of_decoded (env : Env W) (req : Request) (tokenString : String)
    (s : State W) (token : Token) (h : DecodeTokenData env tokenString = (some token, none)) :
    doRequestHelper env req tokenString s =
      (.ret (setBearer req token.AccessToken,
          match (env.clientDo (setBearer req token.AccessToken) s.world).1 with
          | .ok resp => (some resp, none)
          | .error err => (none, some err)),
        { s with world := (env.clientDo (setBearer req token.AccessToken) s.world).2,
                 trace := s.trace ++ [Effect.clientDo (setBearer req token.AccessToken)] }) := by
  simp only [doRequestHelper, h]
  cases (env.clientDo (setBearer req token.AccessToken) s.world).1 <;> rfl

/-- When the token does not decode, `DoRequest` reads the status of the nil response
and panics: the decode error does not reach the caller. No call leaves the process. -/
theorem DoRequest_panics_of_decode_error (env : Env W) (req : Request) (tokenString : String)
    (s : State W) (err : Err) (h : DecodeTokenData env tokenString = (none, some err)) :
    DoRequest env req tokenString s = (.panic nilDeref, s) := by
  simp [DoRequest, doRequestHelper_of_decode_error env req tokenString s err h]

/-- When the first attempt fails in transport, `DoRequest` reads the status of the nil
response and panics as well. -/
theorem DoRequest_panics_of_transport_error (env : Env W) (req : Request) (tokenString : String)
    (s : State W) (token : Token) (err : Err)
    (h : DecodeTokenData env tokenString = (some token, none))
    (hdo : (env.clientDo (setBearer req token.AccessToken) s.world).1 = .error err) :
    (DoRequest env req tokenString s).1 = .panic nilDeref := by
  simp [DoRequest, doRequestHelper_of_decoded env req tokenString s token h, hdo]

/-- Claim C2 (as the code behaves): for the opaque token `!`, which is not base64, and for
the empty token, whose bytes are not JSON for the demo library, `DoRequest` panics with
a nil pointer dereference instead of returning the decode error; no request and no
refresh call is made. -/
theorem DoRequest_undecodable_token_panics (env : Env W) (req : Request) (s : State W) :
    DecodeTokenData env "!" = (none, some "illegal base64 data at input byte 0") ∧
    DoRequest env req "!" s = (.panic nilDeref, s) ∧
    DecodeTokenData demoEnv "" = (none, some "unexpected end of JSON input") ∧
    DoRequest demoEnv demoRequest "" (demoState "https://meshery.example" [] [])
      = (.panic nilDeref, demoState "https://meshery.example" [] []) := by
  have h1 : DecodeTokenData env "!" = (none, some "illegal base64 data at input byte 0") :=
    DecodeTokenData_of_base64_error env "!" _ (by decide)
  have h2 : DecodeTokenData demoEnv "" = (none, some "unexpected end of JSON input") := by decide
  exact ⟨h1, DoRequest_panics_of_decode_error env req "!" s _ h1, h2,
    DoRequest_panics_of_decode_error demoEnv _ "" _ _ h2⟩

/-! ## Refresh cache -/

/-- A token whose store entry reads as a non-empty string is answered from the store. -/
theorem refreshToken_cached (env : Env W) (old : String) (s : State W)
    (h : mapIndex s.l.TokenStore old ≠ "") :
    refreshToken env old s = (.ret (mapIndex s.l.TokenStore old, none), s) := by
  simp [refreshToken, h]

/-- The calls `refreshToken` adds to the trace: none, or one POST, or one POST followed
by the arming of the eviction timer. -/
theorem refreshToken_trace (env : Env W) (old : String) (s : State W) :
    ∃ added : List Effect, (refreshToken env old s).2.trace = s.trace ++ added ∧
      countPosts added ≤ 1 ∧ countRequests added = 0 ∧ countGets added = 0 := by
  unfold refreshToken
  by_cases hc : mapIndex s.l.TokenStore old ≠ ""
  · exact ⟨[], by simp [hc], by decide, by decide, by decide⟩
  · simp only [hc, if_false]
    cases hm : env.jsonMarshal [(env.tokenName, old)] with
    | error err => exact ⟨[], by simp, by decide, by decide, by decide⟩
    | ok body =>
      simp only []
      cases hp : (env.httpPost (s.l.SaaSBaseURL ++ "/refresh") "application/json; charset=utf-8"
          body s.world).1 with
      | error err =>
        exact ⟨[Effect.httpPost (s.l.SaaSBaseURL ++ "/refresh") "application/json; charset=utf-8" body],
          by simp, by simp [countPosts, Effect.isPost], by simp [countRequests, Effect.isRequest],
          by simp [countGets, Effect.isGet]⟩
      | ok r =>
        simp only []
        cases hb : r.Body with
        | readError e =>
          exact ⟨[Effect.httpPost (s.l.SaaSBaseURL ++ "/refresh") "application/json; charset=utf-8" body],
            by simp, by simp [countPosts, Effect.isPost], by simp [countRequests, Effect.isRequest],
            by simp [countGets, Effect.isGet]⟩
        | data b =>
          simp only []
          cases hd : env.jsonDecodeStrMap b with
          | error err =>
            exact ⟨[Effect.httpPost (s.l.SaaSBaseURL ++ "/refresh")
                "application/json; charset=utf-8" body],
              by simp, by simp [countPosts, Effect.isPost], by simp [countRequests, Effect.isRequest],
              by simp [countGets, Effect.isGet]⟩
          | ok target =>
            exact ⟨[Effect.httpPost (s.l.SaaSBaseURL ++ "/refresh")
                "application/json; charset=utf-8" body, Effect.afterFunc fiveMinutes old],
              by simp, by simp [countPosts, Effect.isPost], by simp [countRequests, Effect.isRequest],
              by simp [countGets, Effect.isGet]⟩

/-- When the store reads as empty at `old` and the POST fails in transport, `refreshToken`
dereferences the nil response (`defer r.Body.Close()`) and panics; the store is as before. -/
theorem refreshToken_panics_of_transport_error (env : Env W) (old : String) (s : State W)
    (body : String) (err : Err)
    (hstore : mapIndex s.l.TokenStore old = "")
    (hm : env.jsonMarshal [(env.tokenName, old)] = .ok body)
    (hp : (env.httpPost (s.l.SaaSBaseURL ++ "/refresh") "application/json; charset=utf-8"
      body s.world).1 = .error err) :
    (refreshToken env old s).1 = .panic nilDeref ∧ (refreshToken env old s).2.l = s.l := by
  simp [refreshToken, hstore, hm, hp]

/-- When the store reads as empty at `old` and the response body cannot be read or is not
a JSON string map, `refreshToken` returns an empty token and the error, and the store
is as before. -/
theorem refreshToken_of_parse_error (env : Env W) (old : String) (s : State W)
    (body : String) (r : Response) (err : Err)
    (hstore : mapIndex s.l.TokenStore old = "")
    (hm : env.jsonMarshal [(env.tokenName, old)] = .ok body)
    (hp : (env.httpPost (s.l.SaaSBaseURL ++ "/refresh") "application/json; charset=utf-8"
      body s.world).1 = .ok r)
    (hbad : r.Body = .readError err ∨ ∃ b, r.Body = .data b ∧ env.jsonDecodeStrMap b = .error err) :
    (refreshToken env old s).1 = .ret ("", some err) ∧ (refreshToken env old s).2.l = s.l := by
  rcases hbad with hb | ⟨b, hb, hd⟩
  · simp [refreshToken, hstore, hm, hp, hb]
  · simp [refreshToken, hstore, hm, hp, hb, hd]

/-- Claim C4: when the store has no entry for `old` and the exchange succeeds (the POST is
answered, and the body of the answer decodes to a string map whose token field is `new`),
`refreshToken` returns `new` and a nil error; the calls it adds are exactly one POST to
the backend's `/refresh`, whose body is the JSON object of the token field name mapped
to `old`, and the arming of the five-minute eviction of `old`; the store afterwards is
the prior store with `old` mapped to `new`, every other entry as before; the rest of the
provider is unchanged. -/
theorem refreshToken_miss_installs_new_token (env : Env W) (old new : String) (s : State W)
    (body : String) (r : Response) (b : String) (target : StrMap)
    (hstore : mapLookup s.l.TokenStore old = none)
    (hm : env.jsonMarshal [(env.tokenName, old)] = .ok body)
    (hp : (env.httpPost (s.l.SaaSBaseURL ++ "/refresh") "application/json; charset=utf-8"
      body s.world).1 = .ok r)
    (hb : r.Body = .data b)
    (hd : env.jsonDecodeStrMap b = .ok target)
    (ht : mapLookup target env.tokenName = some new) :
    (refreshToken env old s).1 = .ret (new, none) ∧
    (refreshToken env old s).2.trace =
      s.trace ++ [Effect.httpPost (s.l.SaaSBaseURL ++ "/refresh") "application/json; charset=utf-8" body,
        Effect.afterFunc fiveMinutes old] ∧
    countPosts (refreshToken env old s).2.trace = countPosts s.trace + 1 ∧
    (refreshToken env old s).2.l.TokenStore = mapSet s.l.TokenStore old new ∧
    mapLookup (refreshToken env old s).2.l.TokenStore old = some new ∧
    (∀ k, k ≠ old →
      mapLookup (refreshToken env old s).2.l.TokenStore k = mapLookup s.l.TokenStore k) ∧
    (refreshToken env old s).2.l.SaaSBaseURL = s.l.SaaSBaseURL ∧
    (refreshToken env old s).2.l.Keys = s.l.Keys := by
  have hi : mapIndex s.l.TokenStore old = "" := mapIndex_of_lookup_none _ _ hstore
  have hn : mapIndex target env.tokenName = new := mapIndex_of_lookup_some _ _ _ ht
  have hstate : refreshToken env old s = (.ret (new, none),
      { l := { s.l with TokenStore := mapSet s.l.TokenStore old new },
        world := (env.httpPost (s.l.SaaSBaseURL ++ "/refresh") "application/json; charset=utf-8"
          body s.world).2,
        trace := s.trace ++ [Effect.httpPost (s.l.SaaSBaseURL ++ "/refresh")
          "application/json; charset=utf-8" body] ++ [Effect.afterFunc fiveMinutes old] }) := by
    simp [refreshToken, hi, hm, hp, hb, hd, hn]
  rw [hstate]
  refine ⟨rfl, by simp, ?_, rfl, ?_, ?_, rfl, rfl⟩
  · simp [countPosts, List.filter_append, Effect.isPost]
  · simp [mapLookup_mapSet]
  · intro k hk
    simp [mapLookup_mapSet, Ne.symm hk]

/-- Claim C4 on the demo backend: the empty store, token `X`, answered with `Y`. -/
theorem refreshToken_miss_installs_new_token_witness :
    (refreshToken demoEnv tokenX (demoState "https://meshery.example" [] [])).1
        = .ret (tokenY, none) ∧
    (refreshToken demoEnv tokenX (demoState "https://meshery.example" [] [])).2.l.TokenStore
        = [(tokenX, tokenY)] :=
  have h := refreshToken_miss_installs_new_token demoEnv tokenX tokenY
    (demoState "https://meshery.example" [] []) (renderStrMap [("token", tokenX)])
    { StatusCode := 200, Body := .data refreshBody } refreshBody [("token", tokenY)]
    (by decide) (by decide) (by decide) (by decide) (by decide) (by decide)
  ⟨h.1, h.2.2.2.1⟩

/-- Claim C5, amended: when the entry of `old` in the store is a non-empty string `v`,
`refreshToken` returns `v` and a nil error, and the state afterwards is the state
before: no call leaves the process and the store is unchanged. -/
theorem refreshToken_hit_returns_cached (env : Env W) (old v : String) (s : State W)
    (hstore : mapLookup s.l.TokenStore old = some v) (hv : v ≠ "") :
    refreshToken env old s = (.ret (v, none), s) := by
  have hi : mapIndex s.l.TokenStore old = v := mapIndex_of_lookup_some _ _ _ hstore
  have h := refreshToken_cached env old s (by rw [hi]; exact hv)
  rw [hi] at h
  exact h

/-- Claim C5, amended, on the demo backend: the store maps `X` to `Y`. -/
theorem refreshToken_hit_returns_cached_witness :
    refreshToken demoEnv tokenX (demoState "https://meshery.example" [(tokenX, tokenY)] [])
      = (.ret (tokenY, none), demoState "https://meshery.example" [(tokenX, tokenY)] []) :=
  refreshToken_hit_returns_cached demoEnv tokenX tokenY
    (demoState "https://meshery.example" [(tokenX, tokenY)] []) (by decide) (by decide)

/-- Claim C5 as stated fails when the entry of `old` is the empty string (the entry a
refresh installs when the answer lacks the token field): the store has an entry for
`X`, yet `refreshToken` posts to the backend and overwrites the entry. -/
theorem refreshToken_empty_entry_is_refetched :
    mapLookup (demoState "https://meshery.example" [(tokenX, "")] []).l.TokenStore tokenX = some "" ∧
    (refreshToken demoEnv tokenX (demoState "https://meshery.example" [(tokenX, "")] [])).1
      = .ret (tokenY, none) ∧
    (refreshToken demoEnv tokenX (demoState "https://meshery.example" [(tokenX, "")] [])).2.trace
      = [Effect.httpPost "https://meshery.example/refresh" "application/json; charset=utf-8"
          (renderStrMap [("token", tokenX)]), Effect.afterFunc fiveMinutes tokenX] ∧
    (refreshToken demoEnv tokenX (demoState "https://meshery.example" [(tokenX, "")] [])).2.l.TokenStore
      = [(tokenX, tokenY)] ∧
    (refreshToken demoEnv tokenX (demoState "https://other.example" [] [])).2.l.TokenStore
      = [(tokenX, "")] := by
  decide

/-- Claim C6 (as the code behaves): with no cached replacement for `X` and an unreachable
backend, `refreshToken` panics with a nil pointer dereference after the POST instead
of returning an error; the store is as before. -/
theorem refreshToken_transport_failure_panics :
    (demoEnv.httpPost "https://down.example/refresh" "application/json; charset=utf-8"
      (renderStrMap [("token", tokenX)]) 0).1 = .error "dial tcp: connection refused" ∧
    (refreshToken demoEnv tokenX (demoState "https://down.example" [] [])).1 = .panic nilDeref ∧
    (refreshToken demoEnv tokenX (demoState "https://down.example" [] [])).2.l.TokenStore = [] := by
  have h := refreshToken_panics_of_transport_error demoEnv tokenX
    (demoState "https://down.example" [] []) (renderStrMap [("token", tokenX)])
    "dial tcp: connection refused" (by decide) (by decide) (by decide)
  exact ⟨by decide, h.1, by rw [h.2]; rfl⟩

/-! ## Refresh and retry -/

/-- When the first response is neither 401 nor 403, `DoRequest` returns it with a nil
error after that one request, without any refresh. -/
theorem DoRequest_no_refresh_on_other_status (env : Env W) (req : Request) (tokenString : String)
    (s : State W) (tok : Token) (resp1 : Response)
    (hdec : DecodeTokenData env tokenString = (some tok, none))
    (hfirst : (env.clientDo (setBearer req tok.AccessToken) s.world).1 = .ok resp1)
    (hstatus : ¬ (resp1.StatusCode = 401 ∨ resp1.StatusCode = 403)) :
    DoRequest env req tokenString s =
      (.ret (setBearer req tok.AccessToken, some resp1, none),
        { s with world := (env.clientDo (setBearer req tok.AccessToken) s.world).2,
                 trace := s.trace ++ [Effect.clientDo (setBearer req tok.AccessToken)] }) := by
  simp [DoRequest, doRequestHelper_of_decoded env req tokenString s tok hdec, hfirst, hstatus]

/-- After a 401 or 403 and a successful refresh, `DoRequest` is the second run of
`doRequestHelper`, on the request as the first run left it, with the new token, from
the state the refresh left. -/
theorem DoRequest_after_refresh (env : Env W) (req : Request) (tokenString : String)
    (s s2 : State W) (tok : Token) (resp1 : Response) (newToken : String)
    (hdec : DecodeTokenData env tokenString = (some tok, none))
    (hfirst : (env.clientDo (setBearer req tok.AccessToken) s.world).1 = .ok resp1)
    (hstatus : resp1.StatusCode = 401 ∨ resp1.StatusCode = 403)
    (hrefresh : refreshToken env tokenString
        { s with world := (env.clientDo (setBearer req tok.AccessToken) s.world).2,
                 trace := s.trace ++ [Effect.clientDo (setBearer req tok.AccessToken)] }
      = (.ret (newToken, none), s2)) :
    DoRequest env req tokenString s
      = doRequestHelper env (setBearer req tok.AccessToken) newToken s2 := by
  simp [DoRequest, doRequestHelper_of_decoded env req tokenString s tok hdec, hfirst, hstatus,
    hrefresh]

/-- When the refresh fails with an error, `DoRequest` returns a nil response and that
error, without a second request. -/
theorem DoRequest_refresh_error (env : Env W) (req : Request) (tokenString : String)
    (s s2 : State W) (tok : Token) (resp1 : Response) (t : String) (err : Err)
    (hdec : DecodeTokenData env tokenString = (some tok, none))
    (hfirst : (env.clientDo (setBearer req tok.AccessToken) s.world).1 = .ok resp1)
    (hstatus : resp1.StatusCode = 401 ∨ resp1.StatusCode = 403)
    (hrefresh : refreshToken env tokenString
        { s with world := (env.clientDo (setBearer req tok.AccessToken) s.world).2,
                 trace := s.trace ++ [Effect.clientDo (setBearer req tok.AccessToken)] }
      = (.ret (t, some err), s2)) :
    DoRequest env req tokenString s = (.ret (setBearer req tok.AccessToken, none, some err), s2) := by
  simp [DoRequest, doRequestHelper_of_decoded env req tokenString s tok hdec, hfirst, hstatus,
    hrefresh]

/-- Claim C1, amended: when the token decodes, the first attempt is answered with status
401 or 403, `refreshToken` then returns a new opaque token `newToken` with a nil error,
and `newToken` decodes to `tokN`, then `DoRequest` re-issues the request once, with
`Authorization` set to `bearer ` followed by the access token of `tokN`, and returns
what that second attempt returns (its response with a nil error, or its transport
error with a nil response), whatever the status. The state afterwards is the state
the one refresh left, with that one request added: over the whole call there are two
requests, and at most one POST to the refresh endpoint. -/
theorem DoRequest_refreshes_once_and_retries_once (env : Env W) (req : Request)
    (tokenString : String) (s s2 : State W) (tok : Token) (resp1 : Response)
    (newToken : String) (tokN : Token)
    (hdec : DecodeTokenData env tokenString = (some tok, none))
    (hfirst : (env.clientDo (setBearer req tok.AccessToken) s.world).1 = .ok resp1)
    (hstatus : resp1.StatusCode = 401 ∨ resp1.StatusCode = 403)
    (hrefresh : refreshToken env tokenString
        { s with world := (env.clientDo (setBearer req tok.AccessToken) s.world).2,
                 trace := s.trace ++ [Effect.clientDo (setBearer req tok.AccessToken)] }
      = (.ret (newToken, none), s2))
    (hdecN : DecodeTokenData env newToken = (some tokN, none)) :
    headerValues (setBearer req tokN.AccessToken).Header "Authorization"
      = ["bearer " ++ tokN.AccessToken] ∧
    DoRequest env req tokenString s =
      (.ret (setBearer req tokN.AccessToken,
          match (env.clientDo (setBearer req tokN.AccessToken) s2.world).1 with
          | .ok resp2 => (some resp2, none)
          | .error err => (none, some err)),
        { s2 with world := (env.clientDo (setBearer req tokN.AccessToken) s2.world).2,
                  trace := s2.trace ++ [Effect.clientDo (setBearer req tokN.AccessToken)] }) ∧
    countRequests (DoRequest env req tokenString s).2.trace = countRequests s.trace + 2 ∧
    countPosts (DoRequest env req tokenString s).2.trace ≤ countPosts s.trace + 1 := by
  have hrun := DoRequest_after_refresh env req tokenString s s2 tok resp1 newToken
    hdec hfirst hstatus hrefresh
  have hsecond := doRequestHelper_of_decoded env (setBearer req tok.AccessToken) newToken s2 tokN hdecN
  rw [setBearer_setBearer] at hsecond
  rw [hsecond] at hrun
  obtain ⟨added, htrace, hposts, hreqs, _⟩ := refreshToken_trace env tokenString
    { s with world := (env.clientDo (setBearer req tok.AccessToken) s.world).2,
             trace := s.trace ++ [Effect.clientDo (setBearer req tok.AccessToken)] }
  rw [hrefresh] at htrace
  simp only at htrace
  refine ⟨setBearer_authorization req tokN.AccessToken, hrun, ?_, ?_⟩
  · rw [hrun]
    simp only [htrace, countRequests_append, hreqs]
    simp [countRequests, Effect.isRequest]
  · rw [hrun]
    simp only [htrace, countPosts_append]
    simp only [countPosts, Effect.isPost, List.filter_cons, List.filter_nil, List.length_nil] at hposts ⊢
    simp
    omega

/-- Claim C1, amended, on the demo backend: `X` wraps access token `abc`, the first
answer is 401, the refresh answers `Y`, which wraps `def`; the retried request
carries `bearer def` and its answer, status 200, is what the caller gets. -/
theorem DoRequest_refreshes_once_and_retries_once_witness :
    (DoRequest demoEnv demoRequest tokenX (demoState "https://meshery.example" [] [])).1
      = .ret (setBearer demoRequest "def",
          some { StatusCode := 200, Body := .data "welcome" }, none) ∧
    headerValues (setBearer demoRequest "def").Header "Authorization" = ["bearer def"] ∧
    countRequests
      (DoRequest demoEnv demoRequest tokenX (demoState "https://meshery.example" [] [])).2.trace = 2 :=
  have h := DoRequest_refreshes_once_and_retries_once demoEnv demoRequest tokenX
    (demoState "https://meshery.example" [] [])
    (refreshToken demoEnv tokenX
      (doRequestHelper demoEnv demoRequest tokenX (demoState "https://meshery.example" [] [])).2).2
    { AccessToken := "abc", TokenType := "", RefreshToken := "", Expiry := 0 }
    { StatusCode := 401, Body := .data "unauthorized" }
    tokenY
    { AccessToken := "def", TokenType := "", RefreshToken := "", Expiry := 0 }
    (by decide) (by decide) (by decide) (by decide) (by decide)
  ⟨by rw [h.2.1]; decide, h.1, by rw [h.2.2.1]; decide⟩

/-- Claim C1 as stated fails when the new token does not decode. On the demo backend
with the host whose refresh endpoint answers without the token field, `X` decodes,
the first answer is 401 and `refreshToken` returns the empty token with a nil error;
`DoRequest` then returns a nil response and the decode error of the new token, and
the request is not issued a second time. -/
theorem DoRequest_no_retry_when_new_token_undecodable :
    (doRequestHelper demoEnv demoRequest tokenX (demoState "https://other.example" [] [])).1
      = .ret (setBearer demoRequest "abc",
          some { StatusCode := 401, Body := .data "unauthorized" }, none) ∧
    (refreshToken demoEnv tokenX
      (doRequestHelper demoEnv demoRequest tokenX (demoState "https://other.example" [] [])).2).1
      = .ret ("", none) ∧
    DecodeTokenData demoEnv "" = (none, some "unexpected end of JSON input") ∧
    (DoRequest demoEnv demoRequest tokenX (demoState "https://other.example" [] [])).1
      = .ret (setBearer demoRequest "abc", none, some "unexpected end of JSON input") ∧
    countRequests
      (DoRequest demoEnv demoRequest tokenX (demoState "https://other.example" [] [])).2.trace = 1 := by
  decide

/-! ## Key-set cache -/

/-- The scan returns the first key whose `kid` reads as the one asked for. -/
theorem scanKeys_of_split (pre post : List JWK) (key : JWK) (kid : String)
    (hpre : ∀ k ∈ pre, mapIndex k "kid" ≠ kid) (hkey : mapIndex key "kid" = kid) :
    scanKeys (pre ++ key :: post) kid = some key := by
  induction pre with
  | nil => simp [scanKeys, hkey]
  | cons k rest ih =>
    have hk : mapIndex k "kid" ≠ kid := hpre k (List.mem_cons_self _ _)
    have hrest : ∀ k' ∈ rest, mapIndex k' "kid" ≠ kid :=
      fun k' hk' => hpre k' (List.mem_cons_of_mem _ hk')
    simp [scanKeys, hk, ih hrest]

/-- The scan returns nothing when no key has the `kid` asked for. -/
theorem scanKeys_of_absent (keys : List JWK) (kid : String)
    (h : ∀ k ∈ keys, mapIndex k "kid" ≠ kid) : scanKeys keys kid = none := by
  induction keys with
  | nil => rfl
  | cons k rest ih =>
    have hk : mapIndex k "kid" ≠ kid := h k (List.mem_cons_self _ _)
    have hrest : ∀ k' ∈ rest, mapIndex k' "kid" ≠ kid :=
      fun k' hk' => h k' (List.mem_cons_of_mem _ hk')
    simp [scanKeys, hk, ih hrest]

/-- A key the scan returns is a member of the list and its `kid` reads as the one asked for. -/
theorem scanKeys_some (keys : List JWK) (kid : String) (key : JWK)
    (h : scanKeys keys kid = some key) : key ∈ keys ∧ mapIndex key "kid" = kid := by
  induction keys with
  | nil => simp [scanKeys] at h
  | cons k rest ih =>
    by_cases hk : mapIndex k "kid" = kid
    · simp [scanKeys, hk] at h
      subst h
      exact ⟨List.mem_cons_self _ _, hk⟩
    · simp [scanKeys, hk] at h
      exact ⟨List.mem_cons_of_mem _ (ih h).1, (ih h).2⟩

/-- Every run of `UpdateJWKs` makes exactly one call, the GET to the backend's `/keys`,
and leaves the base URL and the token store as they were. -/
theorem UpdateJWKs_trace (env : Env W) (s : State W) :
    (UpdateJWKs env s).2.trace = s.trace ++ [Effect.httpGet (s.l.SaaSBaseURL ++ "/keys")] ∧
    (UpdateJWKs env s).2.l.SaaSBaseURL = s.l.SaaSBaseURL ∧
    (UpdateJWKs env s).2.l.TokenStore = s.l.TokenStore := by
  unfold UpdateJWKs
  cases hg : (env.httpGet (s.l.SaaSBaseURL ++ "/keys") s.world).1 with
  | error err => simp [hg]
  | ok resp =>
    cases hb : resp.Body with
    | readError err => simp [hg, hb]
    | data b => simp [hg, hb]

/-- When `UpdateJWKs` returns an error (the GET failed in transport, or the body could
not be read), the cached keys are as before. -/
theorem UpdateJWKs_error_keeps_keys (env : Env W) (s : State W) (err : Err)
    (h : (UpdateJWKs env s).1 = some err) : (UpdateJWKs env s).2.l = s.l := by
  unfold UpdateJWKs at h ⊢
  cases hg : (env.httpGet (s.l.SaaSBaseURL ++ "/keys") s.world).1 with
  | error e => simp [hg]
  | ok resp =>
    cases hb : resp.Body with
    | readError e => simp [hg, hb]
    | data b => simp [hg, hb] at h

/-- When the GET is answered and its body is read, `UpdateJWKs` returns a nil error and
the cached keys become the `keys` entry of whatever the JSON library left in the map,
whether or not the library reported an error. -/
theorem UpdateJWKs_of_body (env : Env W) (s : State W) (resp : Response) (b : String)
    (hg : (env.httpGet (s.l.SaaSBaseURL ++ "/keys") s.world).1 = .ok resp)
    (hb : resp.Body = .data b) :
    (UpdateJWKs env s).1 = none ∧
    (UpdateJWKs env s).2.l.Keys = keySetIndex (env.jsonUnmarshalKeySet b).1 "keys" := by
  simp [UpdateJWKs, hg, hb]

/-- Claim C8 (as the code behaves): on the demo backend, with keys k1 and k2 cached, the
GET to `/keys` is answered with an HTML page; the JSON library reports an error and
leaves the map empty, yet `UpdateJWKs` returns a nil error and the cached key set is
replaced by the empty list. -/
theorem UpdateJWKs_malformed_body_clears_keys :
    (demoEnv.httpGet "https://other.example/keys" 0).1
      = .ok { StatusCode := 502, Body := .data "<html>Bad Gateway</html>" } ∧
    demoEnv.jsonUnmarshalKeySet "<html>Bad Gateway</html>"
      = ([], some "invalid character '<' looking for beginning of value") ∧
    (demoState "https://other.example" [] [key1, key2]).l.Keys = [key1, key2] ∧
    (UpdateJWKs demoEnv (demoState "https://other.example" [] [key1, key2])).1 = none ∧
    (UpdateJWKs demoEnv (demoState "https://other.example" [] [key1, key2])).2.l.Keys = [] := by
  decide

/-- Claim C7: for every cached key set and every `kid`. If the first cached entry whose
`kid` reads as `kid` is `key`, `GetJWK` returns `key` with a nil error and the state is
untouched (no fetch). If no cached entry has it, `GetJWK` runs `UpdateJWKs` once (one
GET is added to the trace, and the state afterwards is the one `UpdateJWKs` leaves),
and returns: the error of `UpdateJWKs` if it gave one; else the first entry of the
refreshed set whose `kid` reads as `kid`; else the error `Key not found`. In every
case at most one GET is made, and a returned entry is an entry of the cached set
whose `kid` reads as `kid`, returned with a nil error. -/
theorem GetJWK_hit_or_one_refresh (env : Env W) (kid : String) (s : State W) :
    (∀ pre key post, s.l.Keys = pre ++ key :: post →
        (∀ k ∈ pre, mapIndex k "kid" ≠ kid) → mapIndex key "kid" = kid →
        GetJWK env kid s = ((some key, none), s)) ∧
    ((∀ k ∈ s.l.Keys, mapIndex k "kid" ≠ kid) →
        (GetJWK env kid s).2 = (UpdateJWKs env s).2 ∧
        (GetJWK env kid s).2.trace = s.trace ++ [Effect.httpGet (s.l.SaaSBaseURL ++ "/keys")] ∧
        countGets (GetJWK env kid s).2.trace = countGets s.trace + 1 ∧
        (∀ err, (UpdateJWKs env s).1 = some err →
          (GetJWK env kid s).1 = (none, some err) ∧ (GetJWK env kid s).2.l = s.l) ∧
        ((UpdateJWKs env s).1 = none →
          (∀ pre key post, (UpdateJWKs env s).2.l.Keys = pre ++ key :: post →
            (∀ k ∈ pre, mapIndex k "kid" ≠ kid) → mapIndex key "kid" = kid →
            (GetJWK env kid s).1 = (some key, none)) ∧
          ((∀ k ∈ (UpdateJWKs env s).2.l.Keys, mapIndex k "kid" ≠ kid) →
            (GetJWK env kid s).1 = (none, some "Key not found")))) ∧
    countGets (GetJWK env kid s).2.trace ≤ countGets s.trace + 1 ∧
    (∀ key e, (GetJWK env kid s).1 = (some key, e) →
        mapIndex key "kid" = kid ∧ e = none ∧ key ∈ (GetJWK env kid s).2.l.Keys) := by
  have hmiss : scanKeys s.l.Keys kid = none →
      GetJWK env kid s =
        match (UpdateJWKs env s).1 with
        | some err => ((none, some err), (UpdateJWKs env s).2)
        | none =>
          match scanKeys (UpdateJWKs env s).2.l.Keys kid with
          | some key => ((some key, none), (UpdateJWKs env s).2)
          | none => ((none, some "Key not found"), (UpdateJWKs env s).2) := by
    intro h
    unfold GetJWK
    rw [h]
    rcases hu : UpdateJWKs env s with ⟨r, s1⟩
    cases r <;> rfl
  have hstate : scanKeys s.l.Keys kid = none → (GetJWK env kid s).2 = (UpdateJWKs env s).2 := by
    intro h
    rw [hmiss h]
    cases (UpdateJWKs env s).1 with
    | some err => rfl
    | none => cases scanKeys (UpdateJWKs env s).2.l.Keys kid <;> rfl
  have hgets : countGets (s.trace ++ [Effect.httpGet (s.l.SaaSBaseURL ++ "/keys")])
      = countGets s.trace + 1 := by
    simp [countGets_append, countGets, Effect.isGet]
  refine ⟨?_, ?_, ?_, ?_⟩
  · intro pre key post hsplit hpre hkey
    unfold GetJWK
    rw [hsplit, scanKeys_of_split pre post key kid hpre hkey]
  · intro habsent
    have hnone := scanKeys_of_absent _ _ habsent
    refine ⟨hstate hnone, ?_, ?_, ?_, ?_⟩
    · rw [hstate hnone]; exact (UpdateJWKs_trace env s).1
    · rw [hstate hnone, (UpdateJWKs_trace env s).1]; exact hgets
    · intro err herr
      refine ⟨?_, ?_⟩
      · rw [hmiss hnone, herr]
      · rw [hstate hnone]; exact UpdateJWKs_error_keeps_keys env s err herr
    · intro hok
      refine ⟨?_, ?_⟩
      · intro pre key post hsplit hpre hkey
        rw [hmiss hnone, hok, hsplit, scanKeys_of_split pre post key kid hpre hkey]
      · intro habsent2
        rw [hmiss hnone, hok, scanKeys_of_absent _ _ habsent2]
  · cases hscan : scanKeys s.l.Keys kid with
    | some key =>
      have : GetJWK env kid s = ((some key, none), s) := by
        unfold GetJWK; rw [hscan]
      rw [this]; exact Nat.le_succ _
    | none =>
      rw [hstate hscan, (UpdateJWKs_trace env s).1, hgets]
  · intro key e hret
    cases hscan : scanKeys s.l.Keys kid with
    | some key0 =>
      have hrun : GetJWK env kid s = ((some key0, none), s) := by
        unfold GetJWK; rw [hscan]
      rw [hrun] at hret ⊢
      simp only [Prod.mk.injEq, Option.some.injEq] at hret
      obtain ⟨hk, he⟩ := hret
      subst hk
      exact ⟨(scanKeys_some _ _ _ hscan).2, he.symm, (scanKeys_some _ _ _ hscan).1⟩
    | none =>
      rw [hstate hscan]
      rw [hmiss hscan] at hret
      cases hu : (UpdateJWKs env s).1 with
      | some err => rw [hu] at hret; simp at hret
      | none =>
        rw [hu] at hret
        cases hscan2 : scanKeys (UpdateJWKs env s).2.l.Keys kid with
        | none => rw [hscan2] at hret; simp at hret
        | some key1 =>
          rw [hscan2] at hret
          simp only [Prod.mk.injEq, Option.some.injEq] at hret
          obtain ⟨hk, he⟩ := hret
          subst hk
          exact ⟨(scanKeys_some _ _ _ hscan2).2, he.symm, (scanKeys_some _ _ _ hscan2).1⟩

/-- Claim C7 on the demo backend: with k1 cached, `k1` is answered from the cache without
a fetch; `k2` is answered after one GET from the refreshed set; `k9` fails with
`Key not found` after one GET. -/
theorem GetJWK_hit_or_one_refresh_witness :
    GetJWK demoEnv "k1" (demoState "https://meshery.example" [] [key1])
      = ((some key1, none), demoState "https://meshery.example" [] [key1]) ∧
    (GetJWK demoEnv "k2" (demoState "https://meshery.example" [] [key1])).1 = (some key2, none) ∧
    countGets (GetJWK demoEnv "k2" (demoState "https://meshery.example" [] [key1])).2.trace = 1 ∧
    (GetJWK demoEnv "k9" (demoState "https://meshery.example" [] [key1])).1
      = (none, some "Key not found") :=
  ⟨(GetJWK_hit_or_one_refresh demoEnv "k1" (demoState "https://meshery.example" [] [key1])).1
      [] key1 [] (by decide) (by decide) (by decide),
    (((GetJWK_hit_or_one_refresh demoEnv "k2" (demoState "https://meshery.example" [] [key1])).2.1
      (by decide)).2.2.2.2 (by decide)).1 [key1] key2 [] (by decide) (by decide) (by decide),
    ((GetJWK_hit_or_one_refresh demoEnv "k2" (demoState "https://meshery.example" [] [key1])).2.1
      (by decide)).2.2.1,
    (((GetJWK_hit_or_one_refresh demoEnv "k9" (demoState "https://meshery.example" [] [key1])).2.1
      (by decide)).2.2.2.2 (by decide)).2 (by decide)⟩

/-! ## Token verification -/

/-- Stage 1: when the envelope does not decode, `VerifyToken` returns no claims and the
decode error, and makes no call. -/
theorem VerifyToken_of_decode_error (env : Env W) (tokenString : String) (s : State W) (err : Err)
    (h : DecodeTokenData env tokenString = (none, some err)) :
    VerifyToken env tokenString s = (.ret (none, some err), s) := by
  simp [VerifyToken, h]

/-- Stage 2: when the unverified parse fails, `VerifyToken` returns no claims and that error. -/
theorem VerifyToken_of_parse_error (env : Env W) (tokenString : String) (s : State W)
    (dtoken : Token) (err : Err)
    (hdec : DecodeTokenData env tokenString = (some dtoken, none))
    (hup : env.parseUnverified dtoken.AccessToken = .error err) :
    VerifyToken env tokenString s = (.ret (none, some err), s) := by
  simp [VerifyToken, hdec, hup]

/-- Stage 3, key id: when the header of the access token has no `kid`, or one that is not
a string, the unchecked type assertion panics: `VerifyToken` does not return. -/
theorem VerifyToken_panics_of_missing_kid (env : Env W) (tokenString : String) (s : State W)
    (dtoken : Token) (tokenUP : JWTToken)
    (hdec : DecodeTokenData env tokenString = (some dtoken, none))
    (hup : env.parseUnverified dtoken.AccessToken = .ok tokenUP)
    (hkid : ∀ kid, headerField tokenUP.Header "kid" ≠ some (.str kid)) :
    VerifyToken env tokenString s = (.panic badAssert, s) := by
  simp only [VerifyToken, hdec, hup]

/-- Stage 3, lookup: when `GetJWK` fails, `VerifyToken` returns no claims and its error. -/
theorem VerifyToken_of_lookup_error (env : Env W) (tokenString : String) (s s1 : State W)
    (dtoken : Token) (tokenUP : JWTToken) (kid : String) (keyJSON : Option JWK) (err : Err)
    (hdec : DecodeTokenData env tokenString = (some dtoken, none))
    (hup : env.parseUnverified dtoken.AccessToken = .ok tokenUP)
    (hkid : headerField tokenUP.Header "kid" = some (.str kid))
    (hjwk : GetJWK env kid s = ((keyJSON, some err), s1)) :
    VerifyToken env tokenString s = (.ret (none, some err), s1) := by
  simp [VerifyToken, hdec, hup, hkid, hjwk]

/-- Stage 4: when `GenerateKey` ends the process, so does `VerifyToken`. -/
theorem VerifyToken_exits_of_key_build_exit (env : Env W) (tokenString : String) (s s1 : State W)
    (dtoken : Token) (tokenUP : JWTToken) (kid : String) (keyJSON : Option JWK) (code : Nat)
    (hdec : DecodeTokenData env tokenString = (some dtoken, none))
    (hup : env.parseUnverified dtoken.AccessToken = .ok tokenUP)
    (hkid : headerField tokenUP.Header "kid" = some (.str kid))
    (hjwk : GetJWK env kid s = ((keyJSON, none), s1))
    (hkey : GenerateKey env (keyJSON.getD []) = .exit code) :
    VerifyToken env tokenString s = (.exit code, s1) := by
  simp [VerifyToken, hdec, hup, hkid, hjwk, hkey]

/-- Stages 5 and 6: when every earlier stage succeeds, `VerifyToken` returns what the
verification of the access token with the built key gives: its error, or its claims
when they are a `MapClaims`, or the error `Error parsing claims`. -/
theorem VerifyToken_of_built_key (env : Env W) (tokenString : String) (s s1 : State W)
    (dtoken : Token) (tokenUP : JWTToken) (kid : String) (keyJSON : Option JWK)
    (key : Option PublicKey)
    (hdec : DecodeTokenData env tokenString = (some dtoken, none))
    (hup : env.parseUnverified dtoken.AccessToken = .ok tokenUP)
    (hkid : headerField tokenUP.Header "kid" = some (.str kid))
    (hjwk : GetJWK env kid s = ((keyJSON, none), s1))
    (hkey : GenerateKey env (keyJSON.getD []) = .ret (key, none)) :
    VerifyToken env tokenString s =
      (match env.jwtParse dtoken.AccessToken key with
        | .error err => .ret (none, some err)
        | .ok token =>
          match token.Claims with
          | .mapClaims claims => .ret (some claims, none)
          | .otherClaims => .ret (none, some "Error parsing claims"), s1) := by
  simp only [VerifyToken, hdec, hup, hkid, hjwk, hkey]
  cases env.jwtParse dtoken.AccessToken key with
  | error err => rfl
  | ok token =>
    simp only []
    cases hc : token.Claims <;> rfl

/-- When `VerifyToken` returns claims, every stage succeeded: the envelope decoded, the
access token parsed, its header named a key id, `GetJWK` returned an entry for it,
`GenerateKey` built a key from that entry, and the claims are those of the access
token verified with that key; the error is nil. -/
theorem VerifyToken_claims_only_if_all_stages (env : Env W) (tokenString : String)
    (s s1 : State W) (claims : MapClaims) (e : Option Err)
    (h : VerifyToken env tokenString s = (.ret (some claims, e), s1)) :
    e = none ∧
    ∃ dtoken tokenUP kid keyJSON key token,
      DecodeTokenData env tokenString = (some dtoken, none) ∧
      env.parseUnverified dtoken.AccessToken = .ok tokenUP ∧
      headerField tokenUP.Header "kid" = some (.str kid) ∧
      GetJWK env kid s = ((keyJSON, none), s1) ∧
      GenerateKey env (keyJSON.getD []) = .ret (key, none) ∧
      env.jwtParse dtoken.AccessToken key = .ok token ∧
      token.Claims = .mapClaims claims := by
  rcases DecodeTokenData_cases env tokenString with ⟨dtoken, hdec⟩ | ⟨err, hdec⟩
  swap
  · rw [VerifyToken_of_decode_error env tokenString s err hdec] at h
    simp at h
  cases hup : env.parseUnverified dtoken.AccessToken with
  | error err =>
    rw [VerifyToken_of_parse_error env tokenString s dtoken err hdec hup] at h
    simp at h
  | ok tokenUP =>
    by_cases hk : ∃ kid, headerField tokenUP.Header "kid" = some (.str kid)
    swap
    · have hk' : ∀ kid, headerField tokenUP.Header "kid" ≠ some (.str kid) :=
        fun kid hc => hk ⟨kid, hc⟩
      rw [VerifyToken_panics_of_missing_kid env tokenString s dtoken tokenUP hdec hup hk'] at h
      simp at h
    obtain ⟨kid, hkid⟩ := hk
    rcases hjwk : GetJWK env kid s with ⟨⟨keyJSON, jerr⟩, s2⟩
    cases jerr with
    | some err =>
      rw [VerifyToken_of_lookup_error env tokenString s s2 dtoken tokenUP kid keyJSON err
        hdec hup hkid hjwk] at h
      simp at h
    | none =>
      cases hkey : GenerateKey env (keyJSON.getD []) with
      | exit code =>
        rw [VerifyToken_exits_of_key_build_exit env tokenString s s2 dtoken tokenUP kid keyJSON code
          hdec hup hkid hjwk hkey] at h
        simp at h
      | panic msg =>
        simp [VerifyToken, hdec, hup, hkid, hjwk, hkey] at h
      | ret r =>
        obtain ⟨key, kerr⟩ := r
        cases kerr with
        | some err =>
          simp [VerifyToken, hdec, hup, hkid, hjwk, hkey] at h
        | none =>
          rw [VerifyToken_of_built_key env tokenString s s2 dtoken tokenUP kid keyJSON key
            hdec hup hkid hjwk hkey] at h
          cases hp : env.jwtParse dtoken.AccessToken key with
          | error err => rw [hp] at h; simp at h
          | ok token =>
            rw [hp] at h
            cases hc : token.Claims with
            | otherClaims => simp [hc] at h
            | mapClaims c =>
              simp only [hc, Prod.mk.injEq, Outcome.ret.injEq, Option.some.injEq] at h
              obtain ⟨⟨hcl, he⟩, hs⟩ := h
              subst hcl hs
              exact ⟨he.symm, dtoken, tokenUP, kid, keyJSON, key, token, hdec, hup, hkid, hjwk,
                hkey, hp, hc⟩

/-- Claim C3 (as the code behaves): two stage failures do not come back as an error.
On the demo backend, the access token `nokid.jwt` parses to a header without `kid`,
and `VerifyToken` panics at the type assertion; the access token `k3.jwt` names the
published key k3, whose exponent `GenerateKey` does not accept, and `VerifyToken`
terminates the process with exit code 1. With the key k1, every stage succeeds and
the claims of the verified token are returned. -/
theorem VerifyToken_stage_failures_do_not_return :
    headerField [("alg", GoValue.str "RS256"), ("typ", GoValue.str "JWT")] "kid" = none ∧
    VerifyToken demoEnv tokenNoKid (demoState "https://meshery.example" [] [key1])
      = (.panic badAssert, demoState "https://meshery.example" [] [key1]) ∧
    (VerifyToken demoEnv tokenK3 (demoState "https://meshery.example" [] [key1, key3])).1
      = .exit 1 ∧
    (VerifyToken demoEnv tokenK1 (demoState "https://meshery.example" [] [key1, key3])).1
      = .ret (some [("sub", GoValue.str "alice")], none) := by
  exact ⟨by decide, by decide, by decide, by decide⟩

end Theorems

end Meshery
